import Mathlib

/-!
Verification of the content-generation service (`src/server.js`) against its
natural-language specification.

The JavaScript source is shallowly embedded below:

* the Page Assembler (`assemblePagesFromSections`) becomes a pure Lean
  function over an association-list model of the in-memory `sections` object;
* the Content Orchestrator (`generateContent`) becomes explicit state passing
  over a `JobRecord`, with the generation provider plus extraction step
  abstracted as an oracle `GenRequest → Except PipelineError SectionPayload`;
  the sequence of progress values written by `updateProgress` is carried
  alongside the job record so that temporal claims about reported progress
  can be stated;
* the structured-payload extraction (`contentText.match` of the greedy
  brace-to-brace regex followed by `JSON.parse`) becomes `findSpan` plus an
  executable JSON parser over character lists;
* the `/research` trigger endpoint becomes `postResearch`, returning the HTTP
  response together with the list of job rows inserted.
-/

/-- One FAQ entry, as produced inside a section payload. -/
structure Faq where
  question : String
  answer : String
deriving DecidableEq

/-- Parsed structured result for one section (`SectionPayload` in the spec).
Each field is optional: payloads parsed from provider output may be absent or
partially shaped, and the assembler defaults every missing field. -/
structure SectionPayload where
  content : Option String
  wordCount : Option Nat
  faqs : Option (List Faq)
  cta : Option String
  neighborhoods : Option (List String)
deriving DecidableEq

/-- A city row fetched from the record store: `{id, city, state_code}`. -/
structure City where
  id : String
  city : String
  state_code : String
deriving DecidableEq

/-- Content bundle of the assembled main page (source lines 289-297). -/
structure MainContent where
  heroServices : String
  areasWhyChoose : String
  neighborhoods : List String
  pricingProcess : String
  faqsPart1 : List Faq
  faqsPart2 : List Faq
  testimonialsCta : String
deriving DecidableEq

/-- Content bundle of an assembled neighborhood page (source lines 318-323). -/
structure NeighborhoodContent where
  introProjects : String
  serviceDetails : String
  faqs : List Faq
  cta : String
deriving DecidableEq

/-- The shape of a page's content bundle depends on the page type. -/
inductive PageContent where
  | main (c : MainContent)
  | neighborhood (c : NeighborhoodContent)
deriving DecidableEq

/-- An assembled output page (source lines 284-306 and 312-329). -/
structure Page where
  type : String
  neighborhoodName : Option String
  title : String
  metaDescription : String
  h1 : String
  content : PageContent
  wordCount : Nat
  generatedAt : Nat
deriving DecidableEq

/-- The in-memory `sections` object: keys such as `main` and
`neighborhood_<name>` map to per-section payload maps. -/
abbrev SectionsMap := List (String × List (String × SectionPayload))

/-- Main page construction (source lines 284-306). `x?.f || default` on the
optionally-present payload fields is modelled by `Option.bind` plus `getD`. -/
def mkMainPage (city : City) (secs : SectionsMap) (now : Nat) : Page :=
  let ms := (secs.lookup "main").getD []
  let sget := fun k => ms.lookup k
  { type := "main"
    neighborhoodName := none
    title := "Dumpster Rental in " ++ city.city ++ ", " ++ city.state_code ++
      " - Affordable Roll-Off Rentals"
    metaDescription := "Professional dumpster rental in " ++ city.city ++ ", " ++
      city.state_code ++ ". Fast delivery, transparent pricing."
    h1 := "Dumpster Rental in " ++ city.city ++ ", " ++ city.state_code
    content := PageContent.main
      { heroServices := ((sget "hero_services").bind SectionPayload.content).getD ""
        areasWhyChoose := ((sget "areas_whychoose").bind SectionPayload.content).getD ""
        neighborhoods := ((sget "areas_whychoose").bind SectionPayload.neighborhoods).getD []
        pricingProcess := ((sget "pricing_process").bind SectionPayload.content).getD ""
        faqsPart1 := ((sget "faqs_part1").bind SectionPayload.faqs).getD []
        faqsPart2 := ((sget "faqs_part2").bind SectionPayload.faqs).getD []
        testimonialsCta := ((sget "testimonials_cta").bind SectionPayload.content).getD "" }
    wordCount :=
      ((sget "hero_services").bind SectionPayload.wordCount).getD 0 +
      ((sget "areas_whychoose").bind SectionPayload.wordCount).getD 0 +
      ((sget "pricing_process").bind SectionPayload.wordCount).getD 0 +
      ((sget "faqs_part1").bind SectionPayload.wordCount).getD 0 +
      ((sget "faqs_part2").bind SectionPayload.wordCount).getD 0 +
      ((sget "testimonials_cta").bind SectionPayload.wordCount).getD 0
    generatedAt := now }

/-- Neighborhood page construction (source lines 308-330). -/
def mkNeighborhoodPage (city : City) (secs : SectionsMap) (now : Nat)
    (neighborhood : String) : Page :=
  let ns := (secs.lookup ("neighborhood_" ++ neighborhood)).getD []
  { type := "neighborhood"
    neighborhoodName := some neighborhood
    title := "Dumpster Rental in " ++ neighborhood ++ ", " ++ city.city
    metaDescription := "Dumpster rental in " ++ neighborhood ++ ", " ++ city.city ++
      ". Same-day delivery available."
    h1 := "Dumpster Rental in " ++ neighborhood ++ ", " ++ city.city
    content := PageContent.neighborhood
      { introProjects := ((ns.lookup "intro_projects").bind SectionPayload.content).getD ""
        serviceDetails := ((ns.lookup "service_details").bind SectionPayload.content).getD ""
        faqs := ((ns.lookup "faqs_cta").bind SectionPayload.faqs).getD []
        cta := ((ns.lookup "faqs_cta").bind SectionPayload.cta).getD "" }
    wordCount :=
      ((ns.lookup "intro_projects").bind SectionPayload.wordCount).getD 0 +
      ((ns.lookup "service_details").bind SectionPayload.wordCount).getD 0 +
      ((ns.lookup "faqs_cta").bind SectionPayload.wordCount).getD 0
    generatedAt := now }

/-- The Page Assembler (source lines 281-333): one main page followed by one
page per neighborhood in input order. -/
def assemblePagesFromSections (city : City) (neighborhoods : List String)
    (secs : SectionsMap) (now : Nat) : List Page :=
  mkMainPage city secs now :: neighborhoods.map (mkNeighborhoodPage city secs now)

/-- Erase the generation timestamp of a page, for statements that compare
page content excluding generation timestamps. -/
def stripTime (p : Page) : Page :=
  { p with generatedAt := 0 }

/-- A main-page section spec: key, display label, progress checkpoint, token
budget (source lines 105-112). -/
structure SectionSpec where
  key : String
  label : String
  progress : Nat
  tokens : Nat
deriving DecidableEq

/-- A neighborhood section spec: key, display label, token budget
(source lines 127-131). -/
structure NSectionSpec where
  key : String
  label : String
  tokens : Nat
deriving DecidableEq

/-- The six ordered main-page sections with their fixed checkpoints. -/
def mainSections : List SectionSpec :=
  [ ⟨"hero_services", "Hero & Services", 5, 3000⟩,
    ⟨"areas_whychoose", "Areas & Why Choose Us", 15, 2500⟩,
    ⟨"pricing_process", "Pricing & Process", 25, 2000⟩,
    ⟨"faqs_part1", "FAQs Part 1", 35, 2500⟩,
    ⟨"faqs_part2", "FAQs Part 2", 45, 2500⟩,
    ⟨"testimonials_cta", "Testimonials & CTA", 50, 1500⟩ ]

/-- The three ordered per-neighborhood sections. -/
def neighborhoodSections : List NSectionSpec :=
  [ ⟨"intro_projects", "Intro & Projects", 2000⟩,
    ⟨"service_details", "Service Details", 1500⟩,
    ⟨"faqs_cta", "FAQs & CTA", 2000⟩ ]

/-- The neighborhood list used by the pipeline, hard-coded at source line 100
regardless of the triggering city. -/
def neighborhoods : List String :=
  ["Downtown", "Northside", "Westside", "Eastside"]

/-- `baseProgress` (source line 133). -/
def baseProgress : ℚ := 50

/-- `progressPerNeighborhood` (source line 134). -/
def progressPerNeighborhood : ℚ := 25 / 2

/-- The progress checkpoint of neighborhood `i`, section `j`
(source lines 138 and 145). -/
def nbCheckpoint (i j : Nat) : ℚ :=
  baseProgress + i * progressPerNeighborhood + j * (progressPerNeighborhood / 3)

/-- JavaScript `Math.round`: round half towards positive infinity. -/
def jsRound (q : ℚ) : ℤ :=
  Int.floor (q + 1 / 2)

/-- The persisted job row of the `research_jobs` table. The `results_json`
column is modelled by the `results_pages` field (absent until success) and
the `results_sections` field. -/
structure JobRecord where
  city_id : String
  status : String
  progress : ℤ
  current_step : String
  started_at : Option Nat
  completed_at : Option Nat
  error_message : Option String
  results_pages : Option (List Page)
  results_sections : SectionsMap
deriving DecidableEq

/-- Errors that abort the generation pipeline: the extraction failures plus
any other provider failure, each carrying the `message` recorded on failure. -/
inductive PipelineError where
  | malformedPayload (msg : String)
  | noStructuredPayload (msg : String)
  | providerFailure (msg : String)
deriving DecidableEq

/-- `err.message`, as written to `error_message` by the failure handler. -/
def PipelineError.message : PipelineError → String
  | .malformedPayload msg => msg
  | .noStructuredPayload msg => msg
  | .providerFailure msg => msg

/-- One provider-plus-extraction request issued by the orchestrator:
either `generateMainSection(city, key, tokens)` or
`generateNeighborhoodSection(city, neighborhood, key, tokens)`. -/
inductive GenRequest where
  | mainSec (city : City) (key : String) (tokens : Nat)
  | nbSec (city : City) (neighborhood : String) (key : String) (tokens : Nat)
deriving DecidableEq

/-- The generation provider together with the extraction step, abstracted as
a deterministic oracle for one job run. -/
abbrev Oracle := GenRequest → Except PipelineError SectionPayload

/-- Orchestrator state: the persisted job row plus the sequence of progress
values written so far (instrumentation for the reported-progress claims). -/
structure RunState where
  job : JobRecord
  trace : List ℤ
deriving DecidableEq

/-- `updateProgress(progress, step)` (source lines 93-98): writes the rounded
progress and the step label to the job row; the written value is also
appended to the report trace. -/
def updateProgress (st : RunState) (p : ℚ) (step : String) : RunState :=
  { job := { st.job with progress := jsRound p, current_step := step }
    trace := st.trace ++ [jsRound p] }

/-- The main-page loop (source lines 116-124): report the section checkpoint,
then generate; a generation failure aborts with the state as already updated. -/
def runMainSections (o : Oracle) (c : City) :
    List SectionSpec → RunState → List (String × SectionPayload) →
    Except (RunState × PipelineError) (RunState × List (String × SectionPayload))
  | [], st, acc => .ok (st, acc)
  | s :: rest, st, acc =>
    let st2 := updateProgress st (s.progress : ℚ) ("Main page: " ++ s.label ++ "...")
    match o (GenRequest.mainSec c s.key s.tokens) with
    | .error e => .error (st2, e)
    | .ok p => runMainSections o c rest st2 (acc ++ [(s.key, p)])

/-- The inner neighborhood-section loop (source lines 143-154) for
neighborhood `nb` at index `i`, over the indexed section list. -/
def runNbSections (o : Oracle) (c : City) (nb : String) (i : Nat) :
    List (Nat × NSectionSpec) → RunState → List (String × SectionPayload) →
    Except (RunState × PipelineError) (RunState × List (String × SectionPayload))
  | [], st, acc => .ok (st, acc)
  | (j, s) :: rest, st, acc =>
    let st2 := updateProgress st (nbCheckpoint i j) (nb ++ ": " ++ s.label ++ "...")
    match o (GenRequest.nbSec c nb s.key s.tokens) with
    | .error e => .error (st2, e)
    | .ok p => runNbSections o c nb i rest st2 (acc ++ [(s.key, p)])

/-- The outer neighborhood loop (source lines 136-155) over the indexed
neighborhood list, extending the sections map with one key per neighborhood. -/
def runNeighborhoods (o : Oracle) (c : City) :
    List (Nat × String) → RunState → SectionsMap →
    Except (RunState × PipelineError) (RunState × SectionsMap)
  | [], st, secs => .ok (st, secs)
  | (i, nb) :: rest, st, secs =>
    match runNbSections o c nb i neighborhoodSections.enum st [] with
    | .error e => .error e
    | .ok (st2, acc) =>
      runNeighborhoods o c rest st2 (secs ++ [("neighborhood_" ++ nb, acc)])

/-- The `.catch` failure handler installed by the trigger endpoint
(source lines 68-75): sets only status, error message, and completion time. -/
def applyFailure (job : JobRecord) (e : PipelineError) (now : Nat) : JobRecord :=
  { job with
      status := "failed"
      error_message := some e.message
      completed_at := some now }

/-- `generateContent(jobId, cityId, city)` (source lines 90-176) together with
the failure handler of its caller: runs the main loop, the neighborhood loop,
the 95-percent assembling report, assembly, and success finalization
(source lines 157-168); on any pipeline error, failure finalization.
Returns the final job row and the trace of reported progress values. -/
def generateContent (o : Oracle) (c : City) (job : JobRecord) (now : Nat) :
    JobRecord × List ℤ :=
  match runMainSections o c mainSections ⟨job, []⟩ [] with
  | .error (st, e) => (applyFailure st.job e now, st.trace)
  | .ok (st1, mainAcc) =>
    match runNeighborhoods o c neighborhoods.enum st1 [("main", mainAcc)] with
    | .error (st, e) => (applyFailure st.job e now, st.trace)
    | .ok (st2, secs) =>
      let st3 := updateProgress st2 95 "Assembling pages..."
      let pages := assemblePagesFromSections c neighborhoods secs now
      ({ st3.job with
          status := "completed"
          progress := 100
          current_step := "Complete!"
          completed_at := some now
          results_pages := some pages
          results_sections := secs }, st3.trace)

/-- Responses of the `/research` trigger endpoint. -/
inductive HttpResponse where
  | ok (jobId : Nat)
  | badRequest (error : String)
  | notFound (error : String)
deriving DecidableEq

/-- The synchronous part of `app.post('/research')` (source lines 25-88):
body validation, city lookup, job insertion. Returns the response together
with the list of job rows inserted (the background task is not part of the
synchronous path). A missing or empty `cityId` is falsy in JavaScript and
takes the 400 branch. -/
def postResearch (cities : List (String × City)) (cityId : Option String)
    (now : Nat) : HttpResponse × List JobRecord :=
  match cityId with
  | none => (.badRequest "City ID required", [])
  | some cid =>
    if cid = "" then (.badRequest "City ID required", [])
    else
      match cities.lookup cid with
      | none => (.notFound "City not found", [])
      | some _ =>
        (.ok 1,
          [{ city_id := cid
             status := "processing"
             progress := 0
             current_step := "Starting..."
             started_at := some now
             completed_at := none
             error_message := none
             results_pages := none
             results_sections := [] }])

/-- A freshly inserted job row (source lines 47-58). -/
def initialJob : JobRecord :=
  { city_id := "c1"
    status := "processing"
    progress := 0
    current_step := "Starting..."
    started_at := some 0
    completed_at := none
    error_message := none
    results_pages := none
    results_sections := [] }

/-- The city of the end-to-end scenario. -/
def city0 : City :=
  { id := "c1", city := "Springfield", state_code := "IL" }

/-- A fixed payload returned by the all-success oracle. -/
def okPayload : SectionPayload :=
  { content := some "t"
    wordCount := some 100
    faqs := some []
    cta := some "call"
    neighborhoods := some [] }

/-- An oracle on which every generation call succeeds. -/
def okOracle : Oracle := fun _ => .ok okPayload

/-- An oracle that raises `MalformedPayloadError` exactly on the second
main-page section and succeeds everywhere else. -/
def oracleC2 : Oracle := fun r =>
  match r with
  | GenRequest.mainSec _ k _ =>
    if k = "areas_whychoose" then .error (.malformedPayload "Unexpected token")
    else .ok okPayload
  | _ => .ok okPayload

/-- A parsed JSON value, the structured payload type of the Extraction
Client. Numbers are modelled exactly as rationals. -/
inductive Json where
  | null
  | bool (b : Bool)
  | num (q : ℚ)
  | str (s : String)
  | arr (xs : List Json)
  | obj (kvs : List (String × Json))

/-- Extraction Client failures: no brace-to-brace span in the response text,
or a span that is not well-formed JSON. -/
inductive ExtractError where
  | noStructuredPayload
  | malformedPayload
deriving DecidableEq

/-- The greedy span match of `contentText.match` at source lines 240 and 275:
the substring from the first opening brace to the last closing brace of the
text, when the latter lies strictly after the former. -/
def findSpan (l : List Char) : Option (List Char) :=
  match l.dropWhile (fun c => c != '\x7b') with
  | [] => none
  | c :: rest =>
    match rest.reverse.dropWhile (fun c => c != '\x7d') with
    | [] => none
    | y :: ys => some (c :: (y :: ys).reverse)

/-- JSON insignificant whitespace. -/
def isJsonWs (c : Char) : Bool :=
  c == ' ' || c == '\t' || c == '\n' || c == '\r'

/-- Skip JSON whitespace. -/
def skipWs (l : List Char) : List Char :=
  l.dropWhile isJsonWs

/-- Value of a hexadecimal digit. -/
def hexVal (c : Char) : Option Nat :=
  if '0' ≤ c ∧ c ≤ '9' then some (c.toNat - 48)
  else if 'a' ≤ c ∧ c ≤ 'f' then some (c.toNat - 87)
  else if 'A' ≤ c ∧ c ≤ 'F' then some (c.toNat - 55)
  else none

/-- Single-character JSON string escapes. -/
def escChar (c : Char) : Option Char :=
  if c = '"' then some '"'
  else if c = '\\' then some '\\'
  else if c = '/' then some '/'
  else if c = 'b' then some (Char.ofNat 8)
  else if c = 'f' then some (Char.ofNat 12)
  else if c = 'n' then some '\n'
  else if c = 'r' then some '\r'
  else if c = 't' then some '\t'
  else none

/-- Parse the remainder of a JSON string after the opening quote,
accumulating characters in reverse. Raw control characters are rejected,
as by `JSON.parse`. -/
def parseStrAux : List Char → List Char → Option (String × List Char)
  | '"' :: rest, acc => some (String.mk acc.reverse, rest)
  | '\\' :: 'u' :: a :: b :: c :: d :: rest, acc =>
    match hexVal a, hexVal b, hexVal c, hexVal d with
    | some ha, some hb, some hc, some hd =>
      parseStrAux rest (Char.ofNat (((ha * 16 + hb) * 16 + hc) * 16 + hd) :: acc)
    | _, _, _, _ => none
  | '\\' :: e :: rest, acc =>
    match escChar e with
    | some ch => parseStrAux rest (ch :: acc)
    | none => none
  | c :: rest, acc =>
    if c.toNat < 32 then none else parseStrAux rest (c :: acc)
  | [], _ => none

/-- Parse a JSON string literal after its opening quote. -/
def parseStringLit (l : List Char) : Option (String × List Char) :=
  parseStrAux l []

/-- Numeric value of a digit list. -/
def digitsVal (ds : List Char) : Nat :=
  ds.foldl (fun a c => a * 10 + (c.toNat - 48)) 0

/-- Parse the integer part of a JSON number: `0`, or a nonzero digit
followed by digits (leading zeros are rejected, as by `JSON.parse`). -/
def parseIntPart : List Char → Option (List Char × List Char)
  | '0' :: rest => some (['0'], rest)
  | c :: rest =>
    if c.isDigit then
      some (c :: rest.takeWhile Char.isDigit, rest.dropWhile Char.isDigit)
    else none
  | [] => none

/-- Parse the optional fraction part: a dot followed by one or more digits. -/
def parseFracPart : List Char → Option (List Char × List Char)
  | '.' :: rest =>
    match rest.takeWhile Char.isDigit with
    | [] => none
    | ds => some (ds, rest.dropWhile Char.isDigit)
  | l => some ([], l)

/-- Parse the optional exponent part, returning the signed exponent. -/
def parseExpPart : List Char → Option (ℤ × List Char)
  | c :: rest =>
    if c = 'e' ∨ c = 'E' then
      match rest with
      | '+' :: r2 =>
        match r2.takeWhile Char.isDigit with
        | [] => none
        | ds => some ((digitsVal ds : ℤ), r2.dropWhile Char.isDigit)
      | '-' :: r2 =>
        match r2.takeWhile Char.isDigit with
        | [] => none
        | ds => some (-(digitsVal ds : ℤ), r2.dropWhile Char.isDigit)
      | _ =>
        match rest.takeWhile Char.isDigit with
        | [] => none
        | ds => some ((digitsVal ds : ℤ), rest.dropWhile Char.isDigit)
    else none
  | [] => none

/-- The exact rational value of a decoded JSON number: sign, mantissa
digits value, fraction length, and decimal exponent. -/
def ratOfParts (neg : Bool) (m : Nat) (fracLen : Nat) (e : ℤ) : ℚ :=
  let sm : ℤ := if neg then -(m : ℤ) else (m : ℤ)
  if 0 ≤ e then mkRat (sm * Int.pow 10 e.toNat) (Nat.pow 10 fracLen)
  else mkRat sm (Nat.pow 10 (fracLen + (-e).toNat))

/-- Parse a JSON number following the JSON grammar
`-? int frac? exp?`, valued exactly in the rationals. -/
def parseNumber (l : List Char) : Option (Json × List Char) :=
  let signed : Bool × List Char :=
    match l with
    | '-' :: t => (true, t)
    | _ => (false, l)
  match parseIntPart signed.2 with
  | none => none
  | some (ids, l2) =>
    match parseFracPart l2 with
    | none => none
    | some (fds, l3) =>
      let ev : ℤ × List Char :=
        match parseExpPart l3 with
        | some (e, l4) => (e, l4)
        | none => (0, l3)
      some (Json.num (ratOfParts signed.1 (digitsVal (ids ++ fds)) fds.length ev.1), ev.2)

mutual

/-- Parse one JSON value, fuelled by the remaining recursion depth. -/
def parseVal : Nat → List Char → Option (Json × List Char)
  | 0, _ => none
  | Nat.succ f, l =>
    match skipWs l with
    | '\x7b' :: rest =>
      match skipWs rest with
      | '\x7d' :: r2 => some (Json.obj [], r2)
      | _ => parseMembers f rest []
    | '[' :: rest =>
      match skipWs rest with
      | ']' :: r2 => some (Json.arr [], r2)
      | _ => parseElems f rest []
    | '"' :: rest =>
      match parseStringLit rest with
      | some (s, r) => some (Json.str s, r)
      | none => none
    | 'n' :: 'u' :: 'l' :: 'l' :: rest => some (Json.null, rest)
    | 't' :: 'r' :: 'u' :: 'e' :: rest => some (Json.bool true, rest)
    | 'f' :: 'a' :: 'l' :: 's' :: 'e' :: rest => some (Json.bool false, rest)
    | rest => parseNumber rest

/-- Parse the members of a JSON object. -/
def parseMembers : Nat → List Char → List (String × Json) → Option (Json × List Char)
  | 0, _, _ => none
  | Nat.succ f, l, acc =>
    match skipWs l with
    | '"' :: rest =>
      match parseStringLit rest with
      | none => none
      | some (k, r1) =>
        match skipWs r1 with
        | ':' :: r2 =>
          match parseVal f r2 with
          | none => none
          | some (v, r3) =>
            match skipWs r3 with
            | ',' :: r4 => parseMembers f r4 (acc ++ [(k, v)])
            | '\x7d' :: r4 => some (Json.obj (acc ++ [(k, v)]), r4)
            | _ => none
        | _ => none
    | _ => none

/-- Parse the elements of a JSON array. -/
def parseElems : Nat → List Char → List Json → Option (Json × List Char)
  | 0, _, _ => none
  | Nat.succ f, l, acc =>
    match parseVal f l with
    | none => none
    | some (v, r1) =>
      match skipWs r1 with
      | ',' :: r2 => parseElems f r2 (acc ++ [v])
      | ']' :: r2 => some (Json.arr (acc ++ [v]), r2)
      | _ => none

end

/-- `JSON.parse` on a character list: one value spanning the whole input up
to insignificant whitespace. -/
def parseJsonChars (l : List Char) : Option Json :=
  match parseVal (l.length + 1) l with
  | none => none
  | some (v, rest) => if skipWs rest = [] then some v else none

/-- The Extraction Client (source lines 239-243 and 274-278): greedy span
match over the response text, then a strict JSON parse of the span. -/
def extract (text : String) : Except ExtractError Json :=
  match findSpan text.data with
  | none => .error .noStructuredPayload
  | some span =>
    match parseJsonChars span with
    | none => .error .malformedPayload
    | some v => .ok v

/-- The all-present main sections map of the word-count scenario, reporting
word counts 1200, 1000, 700, 1000, 1000, 500. -/
def demoMainSecs : SectionsMap :=
  [("main",
    [("hero_services", ⟨some "a", some 1200, none, none, none⟩),
     ("areas_whychoose", ⟨some "b", some 1000, none, none, some []⟩),
     ("pricing_process", ⟨some "c", some 700, none, none, none⟩),
     ("faqs_part1", ⟨none, some 1000, some [], none, none⟩),
     ("faqs_part2", ⟨none, some 1000, some [], none, none⟩),
     ("testimonials_cta", ⟨some "d", some 500, none, none, none⟩)])]

/-- C9: failure finalization updates only the status (to failed), the error
message (to the error's description), and the completed timestamp; progress,
current-step label, results payload, city reference, and start timestamp are
unchanged from their values at the point of failure. -/
theorem finalizeFailure_frame (job : JobRecord) (e : PipelineError) (now : Nat) :
    (applyFailure job e now).status = "failed" ∧
    (applyFailure job e now).error_message = some e.message ∧
    (applyFailure job e now).completed_at = some now ∧
    (applyFailure job e now).progress = job.progress ∧
    (applyFailure job e now).current_step = job.current_step ∧
    (applyFailure job e now).results_pages = job.results_pages ∧
    (applyFailure job e now).results_sections = job.results_sections ∧
    (applyFailure job e now).city_id = job.city_id ∧
    (applyFailure job e now).started_at = job.started_at :=
  ⟨rfl, rfl, rfl, rfl, rfl, rfl, rfl, rfl, rfl⟩

/-- C8: a provided city identifier that does not resolve to a City record
makes the trigger endpoint answer with the not-found error synchronously,
and no job row is inserted. -/
theorem research_notFound (cities : List (String × City)) (cid : String) (now : Nat)
    (hne : cid ≠ "") (hmiss : cities.lookup cid = none) :
    postResearch cities (some cid) now = (HttpResponse.notFound "City not found", []) := by
  simp [postResearch, hne, hmiss]

/-- Witness for C8 at the identifier `nope` against an empty city table. -/
theorem research_notFound_witness :
    ("nope" ≠ "" ∧ ([] : List (String × City)).lookup "nope" = none) ∧
    postResearch [] (some "nope") 5 = (HttpResponse.notFound "City not found", []) :=
  ⟨⟨by decide, rfl⟩, research_notFound [] "nope" 5 (by decide) rfl⟩

/-- C3: with the job's neighborhood list (the fixed constant of length N=4),
the per-neighborhood share equals (100−50)/N, each of the three sections of
a neighborhood consumes one third of that share, consecutive neighborhoods
are one share apart, every neighborhood-section checkpoint stays within the
0–100 scale (even with one further section share added), and the base plus
all neighborhood shares come to exactly 100. -/
theorem neighborhood_checkpoint_division :
    progressPerNeighborhood = (100 - baseProgress) / (neighborhoods.length : ℚ) ∧
    (∀ i j : Nat, nbCheckpoint i (j + 1) - nbCheckpoint i j = progressPerNeighborhood / 3) ∧
    (∀ i : Nat, nbCheckpoint (i + 1) 0 - nbCheckpoint i 0 = progressPerNeighborhood) ∧
    (∀ (i : Fin neighborhoods.length) (j : Fin 3),
      nbCheckpoint i j + progressPerNeighborhood / 3 ≤ 100) ∧
    baseProgress + (neighborhoods.length : ℚ) * progressPerNeighborhood = 100 := by
  refine ⟨by norm_num [progressPerNeighborhood, baseProgress, neighborhoods], ?_, ?_, ?_, ?_⟩
  · intro i j
    simp only [nbCheckpoint]
    push_cast
    ring
  · intro i
    simp only [nbCheckpoint]
    push_cast
    ring
  · intro i j
    fin_cases i <;> fin_cases j <;>
      norm_num [nbCheckpoint, baseProgress, progressPerNeighborhood]
  · norm_num [baseProgress, progressPerNeighborhood, neighborhoods]

/-- C7: the Page Assembler is total and deterministic: on every city,
neighborhood list, and sections map it produces a page list of length
1 + number of neighborhoods, and two invocations on identical inputs agree
on all page content once the generation timestamps are erased. -/
theorem assembler_deterministic (c : City) (ns : List String) (secs : SectionsMap)
    (t1 t2 : Nat) :
    (assemblePagesFromSections c ns secs t1).map stripTime =
      (assemblePagesFromSections c ns secs t2).map stripTime ∧
    (assemblePagesFromSections c ns secs t1).length = ns.length + 1 := by
  constructor
  · simp only [assemblePagesFromSections, List.map_cons, List.map_map]
    have h1 : stripTime (mkMainPage c secs t1) = stripTime (mkMainPage c secs t2) := rfl
    have h2 : stripTime ∘ mkNeighborhoodPage c secs t1 =
        stripTime ∘ mkNeighborhoodPage c secs t2 := funext fun _ => rfl
    rw [h1, h2]
  · simp [assemblePagesFromSections]

/-- C6: the assembled main page's aggregate word count is the sum, over the
six main sections in order, of each present section's reported word count
with 0 for an absent one; on the all-present map reporting
[1200, 1000, 700, 1000, 1000, 500] it equals 5400. -/
theorem main_wordcount_aggregation :
    (∀ (c : City) (ns : List String) (secs : SectionsMap) (now : Nat),
      ((assemblePagesFromSections c ns secs now).head?.map Page.wordCount).getD 0 =
        (mainSections.map fun s =>
          ((((secs.lookup "main").getD []).lookup s.key).bind
            SectionPayload.wordCount).getD 0).sum) ∧
    ((assemblePagesFromSections city0 neighborhoods demoMainSecs 0).head?.map
      Page.wordCount).getD 0 = 5400 := by
  constructor
  · intro c ns secs now
    simp [assemblePagesFromSections, mkMainPage, mainSections]
    omega
  · decide

/-- C4 (amended): for the Springfield/IL city, the Page Assembler invoked
with the neighborhood list [Downtown, Northside] produces exactly 3 pages,
one main page followed by the two neighborhood pages in input order; the
main page's title is the full affordable-roll-off template and the second
neighborhood page's title references Northside, Springfield. -/
theorem assembler_two_neighborhood_scenario (secs : SectionsMap) (now : Nat) :
    (assemblePagesFromSections city0 ["Downtown", "Northside"] secs now).length = 3 ∧
    (assemblePagesFromSections city0 ["Downtown", "Northside"] secs now).map Page.type =
      ["main", "neighborhood", "neighborhood"] ∧
    ((assemblePagesFromSections city0 ["Downtown", "Northside"] secs now).head?.map
      Page.title) = some "Dumpster Rental in Springfield, IL - Affordable Roll-Off Rentals" ∧
    ((assemblePagesFromSections city0 ["Downtown", "Northside"] secs now)[2]?.map
      Page.title) = some "Dumpster Rental in Northside, Springfield" ∧
    ((assemblePagesFromSections city0 ["Downtown", "Northside"] secs now)[2]?.map
      Page.neighborhoodName) = some (some "Northside") := by
  refine ⟨?_, ?_, ?_, ?_, ?_⟩ <;>
    simp [assemblePagesFromSections, mkMainPage, mkNeighborhoodPage, city0]

/-- The head of a nonempty `dropWhile` result fails the predicate. -/
theorem dropWhile_head_false {p : Char → Bool} :
    ∀ (l : List Char) (c : Char) (rest : List Char),
      l.dropWhile p = c :: rest → p c = false := by
  intro l
  induction l with
  | nil => intro c rest h; simp [List.dropWhile] at h
  | cons a t ih =>
    intro c rest h
    by_cases hp : p a
    · rw [List.dropWhile_cons_of_pos hp] at h
      exact ih _ _ h
    · rw [List.dropWhile_cons_of_neg hp] at h
      cases h
      simpa using hp

/-- The greedy span match fails exactly on texts with no opening brace
followed (strictly later) by a closing brace. -/
theorem findSpan_eq_none_iff (l : List Char) :
    findSpan l = none ↔
      ∀ i j : Nat, i < j → ¬(l[i]? = some '\x7b' ∧ l[j]? = some '\x7d') := by
  cases hd : l.dropWhile (fun c => c != '\x7b') with
  | nil =>
    have hall := List.dropWhile_eq_nil_iff.mp hd
    have hnone : findSpan l = none := by simp [findSpan, hd]
    rw [hnone]
    refine iff_of_true rfl ?_
    intro i j _ hc
    have hmem := List.getElem?_mem hc.1
    have := hall _ hmem
    simp at this
  | cons c rest =>
    have hc : c = '\x7b' := by
      have hf := dropWhile_head_false l c rest hd
      simpa using hf
    subst hc
    have hl : l.takeWhile (fun c => c != '\x7b') ++ '\x7b' :: rest = l := by
      rw [← hd]
      exact List.takeWhile_append_dropWhile _ _
    have htkmem : ∀ x ∈ l.takeWhile (fun c => c != '\x7b'), x ≠ '\x7b' := by
      intro x hx
      have := List.mem_takeWhile_imp hx
      simpa using this
    cases hr : rest.reverse.dropWhile (fun c => c != '\x7d') with
    | nil =>
      have hnone : findSpan l = none := by simp [findSpan, hd, hr]
      have hnor : ∀ x ∈ rest, x ≠ '\x7d' := by
        have hall := List.dropWhile_eq_nil_iff.mp hr
        intro x hx
        have := hall x (List.mem_reverse.mpr hx)
        simpa using this
      rw [hnone]
      refine iff_of_true rfl ?_
      intro i j hij hc2
      obtain ⟨h1, h2⟩ := hc2
      have hik : (l.takeWhile (fun c => c != '\x7b')).length ≤ i := by
        by_contra hlt
        push_neg at hlt
        rw [← hl, List.getElem?_append_left hlt] at h1
        exact htkmem _ (List.getElem?_mem h1) rfl
      rw [← hl, List.getElem?_append_right (by omega)] at h2
      obtain ⟨d, hdj⟩ : ∃ d, j - (l.takeWhile (fun c => c != '\x7b')).length = d + 1 :=
        ⟨j - (l.takeWhile (fun c => c != '\x7b')).length - 1, by omega⟩
      rw [hdj] at h2
      simp only [List.getElem?_cons_succ] at h2
      exact hnor _ (List.getElem?_mem h2) rfl
    | cons y ys =>
      have hsome : findSpan l = some ('\x7b' :: (y :: ys).reverse) := by
        simp [findSpan, hd, hr]
      rw [hsome]
      refine iff_of_false (by simp) ?_
      intro hno
      have hy : y = '\x7d' := by
        have hf := dropWhile_head_false rest.reverse y ys hr
        simpa using hf
      have hymem : y ∈ rest := by
        have hin : y ∈ rest.reverse.dropWhile (fun c => c != '\x7d') := by
          rw [hr]; exact List.mem_cons_self y ys
        exact List.mem_reverse.mp ((List.dropWhile_sublist _).subset hin)
      obtain ⟨m, hm⟩ := List.mem_iff_getElem?.mp hymem
      set tk := l.takeWhile (fun c => c != '\x7b') with htk
      apply hno tk.length (tk.length + 1 + m) (by omega)
      constructor
      · rw [← hl, List.getElem?_append_right (Nat.le_refl _)]
        simp
      · rw [← hl, List.getElem?_append_right (by omega)]
        have hidx : tk.length + 1 + m - tk.length = m + 1 := by omega
        rw [hidx]
        simp only [List.getElem?_cons_succ]
        rw [hm, hy]

/-- C5: extraction takes the greedy span from the first opening brace to the
last closing brace and parses it: on the noisy content/wordCount example it
succeeds with the expected payload; it fails with NoStructuredPayloadError
exactly on texts containing no brace-to-brace span; and on a span that is
not well-formed JSON it fails with MalformedPayloadError. -/
theorem extraction_contract :
    extract "noise \x7b\"content\":\"x\",\"wordCount\":1\x7d trailing" =
      .ok (Json.obj [("content", Json.str "x"), ("wordCount", Json.num 1)]) ∧
    (∀ text : String,
      extract text = .error ExtractError.noStructuredPayload ↔
        ∀ i j : Nat, i < j →
          ¬(text.data[i]? = some '\x7b' ∧ text.data[j]? = some '\x7d')) ∧
    extract "\x7bnot json\x7d" = .error ExtractError.malformedPayload := by
  refine ⟨rfl, ?_, rfl⟩
  intro text
  rw [← findSpan_eq_none_iff]
  constructor
  · intro h
    cases hs : findSpan text.data with
    | none => rfl
    | some s =>
      exfalso
      simp only [extract, hs] at h
      cases hp : parseJsonChars s with
      | none => simp [hp] at h
      | some v => simp [hp] at h
  · intro h
    simp [extract, h]

/-- C1: on a successful run the code reports the rounded checkpoint sequence
5, 15, 25, 35, 45, 50, 50, 54, 58, 63, 67, 71, 75, 79, 83, 88, 92, 96, 95:
the final value reported before completion is 95 and successful finalization
sets progress to exactly 100, but the sequence is not non-decreasing — the
last neighborhood-section checkpoint rounds to 96 and is followed by the 95
assembling report. -/
theorem progress_report_sequence :
    (generateContent okOracle city0 initialJob 7).2 =
      [5, 15, 25, 35, 45, 50, 50, 54, 58, 63, 67, 71, 75, 79, 83, 88, 92, 96, 95] ∧
    ¬ List.Chain' (· ≤ ·) (generateContent okOracle city0 initialJob 7).2 ∧
    (generateContent okOracle city0 initialJob 7).2.getLast? = some 95 ∧
    (generateContent okOracle city0 initialJob 7).1.progress = 100 ∧
    (generateContent okOracle city0 initialJob 7).1.status = "completed" := by
  have htr : (generateContent okOracle city0 initialJob 7).2 =
      [5, 15, 25, 35, 45, 50, 50, 54, 58, 63, 67, 71, 75, 79, 83, 88, 92, 96, 95] := by
    simp [generateContent, runMainSections, runNeighborhoods, runNbSections, updateProgress,
      mainSections, neighborhoodSections, neighborhoods, okOracle, applyFailure,
      List.enum, List.enumFrom]
    norm_num [jsRound, nbCheckpoint, baseProgress, progressPerNeighborhood, Int.floor_eq_iff]
  refine ⟨htr, ?_, ?_, by decide, by decide⟩
  · rw [htr]
    norm_num [List.chain'_cons]
  · rw [htr]; rfl

/-- C2 is false as stated: when the second main section fails with
MalformedPayloadError, the persisted progress is 15, not 5, because the
second section's checkpoint is reported before its generation runs. -/
theorem failure_checkpoint_counterexample :
    (generateContent oracleC2 city0 initialJob 3).1.status = "failed" ∧
    (generateContent oracleC2 city0 initialJob 3).1.error_message =
      some "Unexpected token" ∧
    (generateContent oracleC2 city0 initialJob 3).1.progress = 15 ∧
    (generateContent oracleC2 city0 initialJob 3).1.progress ≠ 5 ∧
    (generateContent oracleC2 city0 initialJob 3).1.results_pages = none := by
  have hp : (generateContent oracleC2 city0 initialJob 3).1.progress = 15 := by
    simp [generateContent, runMainSections, updateProgress, mainSections, oracleC2,
      applyFailure]
    norm_num [jsRound, Int.floor_eq_iff]
  refine ⟨by decide, by decide, hp, by rw [hp]; decide, by decide⟩

/-- C2 (amended): if the Extraction Client raises MalformedPayloadError while
generating the second main-page section, the job's status becomes failed,
its error message equals that error's description, its persisted progress
remains at 15 (the second section's checkpoint, reported before generation),
and its results payload contains no pages. -/
theorem failure_second_main_section (o : Oracle) (c : City) (job : JobRecord)
    (now : Nat) (p : SectionPayload) (msg : String)
    (h1 : o (GenRequest.mainSec c "hero_services" 3000) = .ok p)
    (h2 : o (GenRequest.mainSec c "areas_whychoose" 2500) =
      .error (PipelineError.malformedPayload msg))
    (hpages : job.results_pages = none) :
    (generateContent o c job now).1.status = "failed" ∧
    (generateContent o c job now).1.error_message = some msg ∧
    (generateContent o c job now).1.progress = 15 ∧
    (generateContent o c job now).1.results_pages = none := by
  simp [generateContent, runMainSections, mainSections, updateProgress, applyFailure,
    h1, h2, PipelineError.message, hpages]
  norm_num [jsRound, Int.floor_eq_iff]

/-- Witness for the amended C2: the oracle failing on the second main section
with message `Unexpected token`, run from a fresh job. -/
theorem failure_second_main_section_witness :
    (oracleC2 (GenRequest.mainSec city0 "hero_services" 3000) = .ok okPayload ∧
     oracleC2 (GenRequest.mainSec city0 "areas_whychoose" 2500) =
       .error (PipelineError.malformedPayload "Unexpected token") ∧
     initialJob.results_pages = none) ∧
    ((generateContent oracleC2 city0 initialJob 3).1.status = "failed" ∧
     (generateContent oracleC2 city0 initialJob 3).1.error_message =
       some "Unexpected token" ∧
     (generateContent oracleC2 city0 initialJob 3).1.progress = 15 ∧
     (generateContent oracleC2 city0 initialJob 3).1.results_pages = none) :=
  ⟨⟨rfl, rfl, rfl⟩,
   failure_second_main_section oracleC2 city0 initialJob 3 okPayload
     "Unexpected token" rfl rfl rfl⟩

/-- C4 is false as stated for a job: the pipeline's neighborhood list is the
fixed 4-element constant, so a successful job for the Springfield city
completes with 5 pages, not 3. -/
theorem job_five_pages_counterexample :
    (generateContent okOracle city0 initialJob 0).1.status = "completed" ∧
    ((generateContent okOracle city0 initialJob 0).1.results_pages.getD []).length = 5 ∧
    ((generateContent okOracle city0 initialJob 0).1.results_pages.getD []).length ≠ 3 ∧
    neighborhoods ≠ ["Downtown", "Northside"] := by
  exact ⟨by decide, by decide, by decide, by decide⟩

/-- A successful inner neighborhood loop adds exactly one payload per
section spec. -/
theorem runNbSections_ok_length (o : Oracle) (c : City) (nb : String) (i : Nat) :
    ∀ (specs : List (Nat × NSectionSpec)) (st : RunState)
      (acc : List (String × SectionPayload)) (st2 : RunState)
      (acc2 : List (String × SectionPayload)),
      runNbSections o c nb i specs st acc = .ok (st2, acc2) →
      acc2.length = acc.length + specs.length := by
  intro specs
  induction specs with
  | nil =>
    intro st acc st2 acc2 h
    cases h
    simp
  | cons js rest ih =>
    intro st acc st2 acc2 h
    obtain ⟨j, s⟩ := js
    simp only [runNbSections] at h
    cases ho : o (GenRequest.nbSec c nb s.key s.tokens) with
    | error e => rw [ho] at h; simp at h
    | ok p =>
      rw [ho] at h
      have hlen := ih _ _ _ _ h
      simp only [List.length_append, List.length_cons, List.length_nil] at hlen ⊢
      omega

/-- A successful outer neighborhood loop appends exactly one sections-map
entry per neighborhood, keyed `neighborhood_<name>`, each holding one payload
per neighborhood section. -/
theorem runNeighborhoods_ok (o : Oracle) (c : City) :
    ∀ (items : List (Nat × String)) (st : RunState) (secs : SectionsMap)
      (st2 : RunState) (secs2 : SectionsMap),
      runNeighborhoods o c items st secs = .ok (st2, secs2) →
      ∃ added : SectionsMap,
        secs2 = secs ++ added ∧
        added.map Prod.fst = items.map (fun it => "neighborhood_" ++ it.2) ∧
        ∀ kv ∈ added, kv.2.length = 3 := by
  intro items
  induction items with
  | nil =>
    intro st secs st2 secs2 h
    cases h
    exact ⟨[], by simp, by simp, by simp⟩
  | cons inb rest ih =>
    intro st secs st2 secs2 h
    obtain ⟨i, nb⟩ := inb
    simp only [runNeighborhoods] at h
    cases hrun : runNbSections o c nb i neighborhoodSections.enum st [] with
    | error e => rw [hrun] at h; simp at h
    | ok pair =>
      obtain ⟨st1, acc⟩ := pair
      rw [hrun] at h
      obtain ⟨added, hsecs, hmap, hlen⟩ := ih _ _ _ _ h
      refine ⟨("neighborhood_" ++ nb, acc) :: added, ?_, ?_, ?_⟩
      · rw [hsecs]; simp
      · simp [hmap]
      · intro kv hkv
        rcases List.mem_cons.mp hkv with hhead | htail
        · subst hhead
          have hthree := runNbSections_ok_length o c nb i _ _ _ _ _ hrun
          simpa [neighborhoodSections] using hthree
        · exact hlen _ htail

/-- The sum of the per-entry payload counts of a sections map whose entries
all hold three payloads is three times the number of entries. -/
theorem sum_lengths_of_all_three (l : SectionsMap) (h : ∀ kv ∈ l, kv.2.length = 3) :
    (l.map (fun kv => kv.2.length)).sum = 3 * l.length := by
  induction l with
  | nil => simp
  | cons a t ih =>
    simp only [List.map_cons, List.sum_cons, List.length_cons]
    rw [h a (List.mem_cons_self a t), ih (fun kv hkv => h kv (List.mem_cons_of_mem _ hkv))]
    ring

/-- C10: the pipeline's neighborhood list is the fixed constant
[Downtown, Northside, Westside, Eastside] regardless of the triggering city;
consequently every successful job holds exactly 12 neighborhood-section
payloads in its results and its results payload contains exactly 5 pages. -/
theorem fixed_neighborhoods_five_pages (o : Oracle) (c : City) (job : JobRecord)
    (now : Nat)
    (hdone : (generateContent o c job now).1.status = "completed") :
    neighborhoods = ["Downtown", "Northside", "Westside", "Eastside"] ∧
    ((generateContent o c job now).1.results_pages.getD []).length = 5 ∧
    (((generateContent o c job now).1.results_sections.filter
      (fun kv => kv.1 != "main")).map (fun kv => kv.2.length)).sum = 12 := by
  cases hmain : runMainSections o c mainSections ⟨job, []⟩ [] with
  | error pe =>
    exfalso
    simp only [generateContent, hmain] at hdone
    simp [applyFailure] at hdone
  | ok pr1 =>
    obtain ⟨st1, mainAcc⟩ := pr1
    cases hnb : runNeighborhoods o c neighborhoods.enum st1 [("main", mainAcc)] with
    | error pe =>
      exfalso
      simp only [generateContent, hmain, hnb] at hdone
      simp [applyFailure] at hdone
    | ok pr2 =>
      obtain ⟨st2, secs⟩ := pr2
      obtain ⟨added, hsecs, hmap, hlen⟩ := runNeighborhoods_ok o c _ _ _ _ _ hnb
      have hkeys : ∀ kv ∈ added, (kv.1 != "main") = true := by
        intro kv hkv
        have h1 : kv.1 ∈ added.map Prod.fst := List.mem_map_of_mem _ hkv
        rw [hmap] at h1
        simp only [neighborhoods, List.enum, List.enumFrom, List.map_cons,
          List.map_nil, List.mem_cons, List.not_mem_nil, or_false] at h1
        rcases h1 with h | h | h | h <;> rw [h] <;> decide
      have hlen4 : added.length = 4 := by
        have := congrArg List.length hmap
        simpa [neighborhoods] using this
      have hfilter : secs.filter (fun kv => kv.1 != "main") = added := by
        rw [hsecs]
        rw [show ([("main", mainAcc)] : SectionsMap) ++ added = ("main", mainAcc) :: added
          from rfl]
        rw [List.filter_cons]
        simp only [bne_self_eq_false, Bool.false_eq_true, if_false]
        exact List.filter_eq_self.mpr hkeys
      refine ⟨rfl, ?_, ?_⟩
      · simp only [generateContent, hmain, hnb]
        simp [assemblePagesFromSections, neighborhoods]
      · simp only [generateContent, hmain, hnb]
        simp only [hfilter]
        rw [sum_lengths_of_all_three added hlen, hlen4]

/-- Witness for C10 at the all-success oracle and the Springfield city. -/
theorem fixed_neighborhoods_five_pages_witness :
    (generateContent okOracle city0 initialJob 0).1.status = "completed" ∧
    (neighborhoods = ["Downtown", "Northside", "Westside", "Eastside"] ∧
     ((generateContent okOracle city0 initialJob 0).1.results_pages.getD []).length = 5 ∧
     (((generateContent okOracle city0 initialJob 0).1.results_sections.filter
       (fun kv => kv.1 != "main")).map (fun kv => kv.2.length)).sum = 12) :=
  ⟨by decide, fixed_neighborhoods_five_pages okOracle city0 initialJob 0 (by decide)⟩
